import Mathlib

/-
Verification of the waybar-updates-btw status-bar provider (src/main.go).

The development shallowly embeds the pure logic of the program:
tokenisation (strings.Fields), the version-delta classifier (parseVersion),
the column/markup formatter (addFormat, including the accumulated
strings.Builder and the fmt.Sprintf missing-argument behaviour of Go),
the startup interval validation, the colors slice built in main, the
per-tick push of the pacman poller (checkUpdates), the per-due-tick pushes
of the AUR poller (checkAurUpdates), and the merge and emit loop of main
as a state machine over received channel messages.

Conventions: a Go nil slice sent on a channel is modelled as none, a
non-nil slice as some list; a Go runtime panic (index out of range) makes
the embedded function return none.
-/

set_option maxRecDepth 16384

namespace Waybar

/-- Accumulator loop for fields: cur holds the characters of the current
token in reverse. -/
def fieldsAux : List Char → List Char → List String
  | [], cur => if cur.isEmpty then [] else [String.mk cur.reverse]
  | c :: rest, cur =>
    if c.isWhitespace then
      (if cur.isEmpty then [] else [String.mk cur.reverse]) ++ fieldsAux rest []
    else
      fieldsAux rest (c :: cur)

/-- Go strings.Fields: split around runs of whitespace, dropping empties. -/
def fields (s : String) : List String :=
  fieldsAux s.data []

/-- Accumulator loop for splitLines: cur holds the characters of the
current piece in reverse. -/
def splitLinesAux : List Char → List Char → List String
  | [], cur => [String.mk cur.reverse]
  | c :: rest, cur =>
    if c == '\n' then String.mk cur.reverse :: splitLinesAux rest []
    else splitLinesAux rest (c :: cur)

/-- Go strings.Split with a newline separator: the pieces between
newlines, at least one piece, empty pieces kept. -/
def splitLines (s : String) : List String :=
  splitLinesAux s.data []

/-- Go strings.TrimSpace: drop whitespace from both ends. -/
def trimSpace (s : String) : String :=
  String.mk
    (((s.data.dropWhile (fun c => c.isWhitespace)).reverse.dropWhile
        (fun c => c.isWhitespace)).reverse)

/-- Loop body of parseVersion (src/main.go lines 136-145). The loop runs
for maxLen iterations; each iteration reads newVersion at index i (a Go
panic, modelled none, when out of range), increments dotCounter on a dot
or dash, reads oldVersion at index i (again none when out of range), and
stops returning dotCounter at the first differing position. -/
def parseVersionLoop (old new : List Char) : Nat → Nat → Nat → Option Nat
  | 0, _, dotCounter => some dotCounter
  | fuel + 1, i, dotCounter =>
    match new.get? i with
    | none => none
    | some cn =>
      let d := if cn == '.' || cn == '-' then dotCounter + 1 else dotCounter
      match old.get? i with
      | none => none
      | some co => if cn == co then parseVersionLoop old new fuel (i + 1) d else some d

/-- parseVersion (src/main.go lines 135-147): counts the separators in the
new version up to and including the first differing position, scanning up
to the length of the longer string. -/
def parseVersion (oldVersion newVersion : String) : Option Nat :=
  parseVersionLoop oldVersion.data newVersion.data
    (max oldVersion.data.length newVersion.data.length) 0 0

/-- Decimal value of a digit list, as parsed by Go fmt width syntax. -/
def digitsToNat (ds : List Char) : Nat :=
  ds.foldl (fun n c => n * 10 + (c.toNat - 48)) 0

/-- Pad on the right with spaces to the given width (Go fmt flag minus). -/
def padStringRight (s : String) (w : Nat) : String :=
  s ++ String.mk (List.replicate (w - s.length) ' ')

/-- Pad on the left with spaces to the given width (Go fmt default). -/
def padStringLeft (s : String) (w : Nat) : String :=
  String.mk (List.replicate (w - s.length) ' ') ++ s

/-- Interpreter for the fragment of Go fmt.Sprintf used by addFormat:
string verbs with an optional minus flag and width. A verb with no
argument left renders as the Go missing-argument text. Fuel bounds the
recursion; callers pass the format length plus one. -/
def goSprintfAux : Nat → List Char → List String → String
  | 0, _, _ => ""
  | _ + 1, [], _ => ""
  | fuel + 1, c :: rest, args =>
    if c == '%' then
      let neg := rest.head? == some '-'
      let rest1 := if neg then rest.tail else rest
      let ds := rest1.takeWhile (fun d => d.isDigit)
      let rest2 := rest1.dropWhile (fun d => d.isDigit)
      match rest2 with
      | 's' :: rest3 =>
        match args with
        | [] => "%!s(MISSING)" ++ goSprintfAux fuel rest3 []
        | a :: args2 =>
          let w := digitsToNat ds
          let piece :=
            if ds.isEmpty then a
            else if neg then padStringRight a w
            else padStringLeft a w
          piece ++ goSprintfAux fuel rest3 args2
      | _ => "%" ++ goSprintfAux fuel rest args
    else
      String.singleton c ++ goSprintfAux fuel rest args

/-- Go fmt.Sprintf restricted to string verbs, as used in addFormat. -/
def goSprintf (format : String) (args : List String) : String :=
  goSprintfAux (format.data.length + 1) format.data args

/-- First loop of addFormat (src/main.go lines 109-116): maximum widths of
token 0 and token 1 over the lines that split into exactly four tokens. -/
def maxNameVersionLens (allParts : List (List String)) : Nat × Nat :=
  allParts.foldl
    (fun acc p =>
      match p with
      | [n, v, _, _] => (max acc.1 n.length, max acc.2 v.length)
      | _ => acc)
    (0, 0)

/-- Color attribute appended for one line (src/main.go lines 122-124):
classify the version delta, then index the palette. A palette index past
the end is a Go panic, modelled none; so is a panic inside parseVersion. -/
def colorAttr (colors : List String) (oldV newV : String) : Option String :=
  match parseVersion oldV newV with
  | none => none
  | some category =>
    match colors.get? category with
    | none => none
    | some c => some (" color=\x27#" ++ c ++ "\x27")

/-- Format-string tail appended for one line (src/main.go lines 126-130). -/
def formatTail (rawOutput : Bool) (maxNameLen maxVersionLen : Nat) : String :=
  if rawOutput then ">%s %s -> %s</span>"
  else ">%-" ++ toString maxNameLen ++ "s %-" ++ toString maxVersionLen ++ "s -> %s</span>"

/-- One well-formed line of the second loop of addFormat: append to the
builder (which is never reset in the source), then run Sprintf of the
whole accumulated builder contents on the three tokens of this line.
Returns the new builder contents and the rewritten line. -/
def addFormatStep (colors : List String) (rawOutput noColor : Bool)
    (maxNameLen maxVersionLen : Nat) (formatStr : String)
    (p0 p1 p3 : String) : Option (String × String) :=
  match (if noColor then some "" else colorAttr colors p1 p3) with
  | none => none
  | some attr =>
    let f := formatStr ++ "<span font-family=\x27monospace\x27" ++ attr ++
      formatTail rawOutput maxNameLen maxVersionLen
    some (f, goSprintf f [p0, p1, p3])

/-- Second loop of addFormat (src/main.go lines 117-132): lines that do
not split into four tokens pass through unchanged; the builder contents
persist across iterations. -/
def addFormatLoop (colors : List String) (rawOutput noColor : Bool)
    (maxNameLen maxVersionLen : Nat) :
    List (String × List String) → String → Option (List String)
  | [], _ => some []
  | (line, parts) :: rest, formatStr =>
    match parts with
    | [p0, p1, _, p3] =>
      match addFormatStep colors rawOutput noColor maxNameLen maxVersionLen formatStr p0 p1 p3 with
      | none => none
      | some (f, newLine) =>
        match addFormatLoop colors rawOutput noColor maxNameLen maxVersionLen rest f with
        | none => none
        | some out => some (newLine :: out)
    | _ =>
      match addFormatLoop colors rawOutput noColor maxNameLen maxVersionLen rest formatStr with
      | none => none
      | some out => some (line :: out)

/-- addFormat (src/main.go lines 104-133). -/
def addFormat (updates colors : List String) (rawOutput noColor : Bool) :
    Option (List String) :=
  let allParts := updates.map fields
  let mnv := maxNameVersionLens allParts
  addFormatLoop colors rawOutput noColor mnv.1 mnv.2 (updates.zip allParts) ""

/-- The Result record encoded to standard output (src/main.go lines 15-20). -/
structure Result where
  Text : String
  Tooltip : String
  Class : String
  Alt : String

/-- State of the merge and emit loop of main: the Result last computed
(emitted at the top of each iteration) and the two retained slots. -/
structure MergeState where
  result : Result
  updatesPac : List String
  updatesAur : List String

/-- A message received by the select of main: which channel fired, and the
slice that was sent (none models a Go nil slice, the no-data sentinel). -/
inductive Msg where
  | pac (v : Option (List String))
  | aur (v : Option (List String))

/-- State before the first receive (src/main.go lines 57 and 67): the
startup Result and two nil (empty) slots. -/
def initialMergeState : MergeState :=
  ⟨⟨ "0", "Checking for updates...", "has-updates", "has-updates" ⟩, [], []⟩

/-- The select block of main (src/main.go lines 73-82): a non-nil received
slice replaces the corresponding slot, a nil one is ignored. -/
def applyMsg (s : MergeState) : Msg → MergeState
  | Msg.pac (some v) => ⟨s.result, v, s.updatesAur⟩
  | Msg.pac none => s
  | Msg.aur (some v) => ⟨s.result, s.updatesPac, v⟩
  | Msg.aur none => s

/-- Rest of the loop body of main (src/main.go lines 83-100): concatenate
the slots, pacman first; on an empty concatenation install the up-to-date
Result, otherwise format (none propagates a formatter panic) and install
the count, the joined tooltip and the has-updates class. -/
def computeResult (colors : List String) (rawOutput noColor : Bool)
    (s : MergeState) : Option MergeState :=
  if (s.updatesPac ++ s.updatesAur).length = 0 then
    some ⟨⟨ "", "All packages are up to date", "updated", "updated" ⟩,
      s.updatesPac, s.updatesAur⟩
  else
    match (if !rawOutput || !noColor
           then addFormat (s.updatesPac ++ s.updatesAur) colors rawOutput noColor
           else some (s.updatesPac ++ s.updatesAur)) with
    | none => none
    | some formatted =>
      some ⟨⟨ toString (s.updatesPac ++ s.updatesAur).length,
              String.intercalate "\n" formatted, "has-updates", "has-updates" ⟩,
        s.updatesPac, s.updatesAur⟩

/-- One full iteration of the merge loop on one received message. -/
def mergeStep (colors : List String) (rawOutput noColor : Bool)
    (s : MergeState) (m : Msg) : Option MergeState :=
  computeResult colors rawOutput noColor (applyMsg s m)

/-- Run the merge loop from a given state over a list of received
messages; none models a panic of the formatter aborting the process. -/
def mergeRunFrom (colors : List String) (rawOutput noColor : Bool) :
    MergeState → List Msg → Option MergeState
  | s, [] => some s
  | s, m :: ms =>
    match mergeStep colors rawOutput noColor s m with
    | none => none
    | some s2 => mergeRunFrom colors rawOutput noColor s2 ms

/-- Run the merge loop from the initial state of main. -/
def mergeRun (colors : List String) (rawOutput noColor : Bool)
    (msgs : List Msg) : Option MergeState :=
  mergeRunFrom colors rawOutput noColor initialMergeState msgs

/-- Outcome of one invocation of the external checkupdates command. -/
inductive CmdOutcome where
  | ok (output : String)
  | exitErr (code : Int)
  | execErr

/-- The value checkUpdates pushes on its channel for one tick
(src/main.go lines 160-170): on success the trimmed output split on
newlines; on an ExitError with code 2 a nil slice; on any other failure
also a nil slice (the diagnostic push on line 166 is commented out). -/
def checkUpdatesPush : CmdOutcome → Option (List String)
  | CmdOutcome.ok output => some (splitLines (trimSpace output))
  | CmdOutcome.exitErr _ => none
  | CmdOutcome.execErr => none

/-- A record returned by the AUR registry (src/main.go lines 26-29). -/
structure AurPackage where
  Name : String
  Version : String

/-- Externally determined outcomes of one due AUR tick: the error and
captured output of the foreign-package listing command, and the error or
results of the registry query. -/
structure AurTickEnv where
  qmErr : Option String
  qmOutput : String
  queryErr : Option String
  queryResults : List AurPackage

/-- Go map assignment: replace the value of an existing key, else append. -/
def mapSet (m : List (String × String)) (k v : String) :
    List (String × String) :=
  if m.any (fun p => p.1 == k) then
    m.map (fun p => if p.1 == k then (k, v) else p)
  else
    m ++ [(k, v)]

/-- Go map read: value of the first matching key, else the zero value. -/
def mapGet (m : List (String × String)) (k : String) : String :=
  match m.find? (fun p => p.1 == k) with
  | some p => p.2
  | none => ""

/-- Local foreign-package table built from the listing output
(src/main.go lines 200-206): split on newlines, keep lines with at least
two fields, later lines overwrite earlier keys. -/
def buildLocalPackages (output : String) : List (String × String) :=
  (splitLines output).foldl
    (fun acc line =>
      match fields line with
      | p0 :: p1 :: _ => mapSet acc p0 p1
      | _ => acc)
    []

/-- Update lines built from the registry records (src/main.go lines
219-224): one line per record whose version differs from the local one. -/
def aurUpdatesFrom (localPackages : List (String × String))
    (aurPackages : List AurPackage) : List String :=
  (aurPackages.filter (fun p => p.Version != mapGet localPackages p.Name)).map
    (fun p => "aur/" ++ p.Name ++ " " ++ mapGet localPackages p.Name ++
      " -> " ++ p.Version)

/-- The sequence of values checkAurUpdates pushes on its channel during
one due tick (src/main.go lines 190-226): a diagnostic push when the
listing fails (execution then falls through), a Nothing-from-aur push when
the captured output is empty, a diagnostic push when the registry query
fails, and finally the computed updates slice, which is nil (none) when no
update line was appended. -/
def aurDueTickPushes (env : AurTickEnv) : List (Option (List String)) :=
  (match env.qmErr with
   | some e => [ some [ "Error running pacman -Qm: " ++ e ] ]
   | none => []) ++
  (if env.qmOutput.length = 0 then [ some [ "Nothing from aur installed" ] ] else []) ++
  (match env.queryErr with
   | some e => [ some [ "Error querying AUR API: " ++ e ] ]
   | none => []) ++
  [ (let updates := aurUpdatesFrom (buildLocalPackages env.qmOutput)
        (if env.queryErr.isSome then [] else env.queryResults);
     if updates.isEmpty then none else some updates) ]

/-- The five color flag variables with their registered default values
(src/main.go lines 42-46). -/
structure ColorConfig where
  colorMajor : String
  colorMinor : String
  colorPatch : String
  colorPre : String
  colorOther : String

/-- Defaults passed to flag.StringVar for the five color flags. -/
def defaultColorConfig : ColorConfig :=
  ⟨ "f7768e", "ff9e64", "e0af68", "9ece6a", "7dcfff" ⟩

/-- Command-line overrides supplied for the five color flags; none means
the flag was not given on the command line. -/
structure ColorOverrides where
  colorMajor : Option String
  colorMinor : Option String
  colorPatch : Option String
  colorPre : Option String
  colorOther : Option String

/-- Values of the five color flag variables after flag.Parse has run
(src/main.go line 49): each override replaces its default. -/
def parsedColorConfig (o : ColorOverrides) : ColorConfig :=
  ⟨ o.colorMajor.getD defaultColorConfig.colorMajor,
    o.colorMinor.getD defaultColorConfig.colorMinor,
    o.colorPatch.getD defaultColorConfig.colorPatch,
    o.colorPre.getD defaultColorConfig.colorPre,
    o.colorOther.getD defaultColorConfig.colorOther ⟩

/-- The colors slice built by main (src/main.go line 47). The slice is
constructed on line 47, before flag.Parse runs on line 49, so it copies
the registered default values of the flag variables whatever overrides
the command line carries. -/
def mainColors (_o : ColorOverrides) : List String :=
  [ defaultColorConfig.colorMajor, defaultColorConfig.colorMinor,
    defaultColorConfig.colorPatch, defaultColorConfig.colorPre,
    defaultColorConfig.colorOther ]

/-- The default palette, for use at concrete inputs. -/
def defaultColors : List String :=
  [ "f7768e", "ff9e64", "e0af68", "9ece6a", "7dcfff" ]

/-- The startup validation condition of main (src/main.go line 51): true
when the program prints the diagnostic and exits with status 1. -/
def intervalValidationFails (interval intervalSync : Int) : Bool :=
  interval == 0 || decide (intervalSync < 10) || decide (intervalSync < interval)

/-- State of the merge loop after one empty emission, used as a concrete
reachable state in witnesses. -/
def upToDateState : MergeState :=
  ⟨⟨ "", "All packages are up to date", "updated", "updated" ⟩, [], []⟩

/-- Concrete environment of a due AUR tick whose listing command failed
with empty captured output and whose registry query returned no results. -/
def aurEnvFail : AurTickEnv :=
  ⟨ some "exit status 1", "", none, [] ⟩

/-- Concrete command line overriding only the major color. -/
def overrideMajorBlack : ColorOverrides :=
  ⟨ some "000000", none, none, none, none ⟩

/-- Invariant tying the emitted Result to the retained slots: either the
empty-text variant or a Text equal to the decimal sum of the slot
lengths. -/
def countInv (s : MergeState) : Prop :=
  s.result.Text = "" ∨
    s.result.Text = toString (s.updatesPac.length + s.updatesAur.length)

/-- C7: parseVersion classifies the pair 1.0.0 to 2.0.0 as category 0
(major) and the pair 1.2.3 to 1.2.4 as category 2 (patch), matching the
documented palette order major 0, minor 1, patch 2. -/
theorem parseVersion_category_examples :
    parseVersion "1.0.0" "2.0.0" = some 0 ∧ parseVersion "1.2.3" "1.2.4" = some 2 :=
  ⟨rfl, rfl⟩

/-- C10: there is a version pair on which parseVersion returns 5, past the
last index of the 5-entry palette, and a well-formed four-token update
line built from it drives addFormat into the out-of-range palette lookup
(a Go panic, modelled none). -/
theorem parseVersion_exceeds_palette :
    parseVersion "1.1.1.1.1.2" "1.1.1.1.1.3" = some 5 ∧
    4 < 5 ∧ defaultColors.length = 5 ∧
    (fields "pkg 1.1.1.1.1.2 -> 1.1.1.1.1.3").length = 4 ∧
    addFormat [ "pkg 1.1.1.1.1.2 -> 1.1.1.1.1.3" ] defaultColors false false = none :=
  ⟨rfl, by decide, rfl, rfl, rfl⟩

/-- C9: the startup validation accepts a negative interval. With the
default interval-sync of 300, the value minus five passes the check on
src/main.go line 51, although the diagnostic printed by that check states
the interval must be greater than zero; only the exact value zero is
rejected. -/
theorem intervalValidation_negative_passes :
    (-5 : Int) ≤ 0 ∧ intervalValidationFails (-5) 300 = false ∧
    intervalValidationFails 0 300 = true := by
  decide

/-- C4: on the two-line input of the claim, with raw-output and no-color
both false and the default palette, the first line is rewritten as the
claim describes, but the format builder is never reset, so the second
line is produced from the accumulated two-verb-group format string: it is
wrapped in two span groups, carries the color of the first line in its
first group, and ends in Go missing-argument placeholders. -/
theorem addFormat_builder_accumulation :
    addFormat [ "pkgA 1.0 -> 1.1", "longpkg 2.0.0 -> 2.0.1" ] defaultColors false false =
      some [ "<span font-family=\x27monospace\x27 color=\x27#ff9e64\x27>pkgA    1.0   -> 1.1</span>",
        "<span font-family=\x27monospace\x27 color=\x27#ff9e64\x27>longpkg 2.0.0 -> 2.0.1</span><span font-family=\x27monospace\x27 color=\x27#e0af68\x27>%!s(MISSING) %!s(MISSING) -> %!s(MISSING)</span>" ] :=
  rfl

/-- C5: the colors slice of main is built on src/main.go line 47, before
flag.Parse runs on line 49, so a command line overriding color-major with
000000 still formats a major update with the built-in default f7768e. -/
theorem colors_built_before_parse :
    (parsedColorConfig overrideMajorBlack).colorMajor = "000000" ∧
    mainColors overrideMajorBlack = defaultColors ∧
    addFormat [ "a 1.0 -> 2.0" ] (mainColors overrideMajorBlack) false false =
      some [ "<span font-family=\x27monospace\x27 color=\x27#f7768e\x27>a 1.0 -> 2.0</span>" ] ∧
    ("f7768e" : String) ≠ "000000" :=
  ⟨rfl, rfl, rfl, by decide⟩

/-- C1 counterexample: on the no-updates exit code 2 the pacman poller
pushes the nil sentinel, not an empty list, and on any other invocation
failure it also pushes the nil sentinel rather than a diagnostic line
(src/main.go lines 162-167; the diagnostic push is commented out). -/
theorem checkUpdates_exit2_pushes_sentinel :
    checkUpdatesPush (CmdOutcome.exitErr 2) = none ∧
    checkUpdatesPush (CmdOutcome.exitErr 2) ≠ some [] ∧
    checkUpdatesPush CmdOutcome.execErr = none :=
  ⟨rfl, by decide, rfl⟩

/-- C1 amended: on every tick the pacman poller pushes the parsed list
(trimmed output split on newlines) on success, and the nil no-data
sentinel on the exit-code-2 outcome and on every other invocation
failure; the sentinel leaves the merge loop pacman slot unchanged. -/
theorem checkUpdatesPush_amended :
    (∀ output : String,
      checkUpdatesPush (CmdOutcome.ok output) = some (splitLines (trimSpace output))) ∧
    (∀ c : Int, checkUpdatesPush (CmdOutcome.exitErr c) = none) ∧
    checkUpdatesPush CmdOutcome.execErr = none ∧
    (∀ (s : MergeState) (c : Int),
      applyMsg s (Msg.pac (checkUpdatesPush (CmdOutcome.exitErr c))) = s) ∧
    (∀ s : MergeState, applyMsg s (Msg.pac (checkUpdatesPush CmdOutcome.execErr)) = s) :=
  ⟨fun _ => rfl, fun _ => rfl, rfl, fun _ _ => rfl, fun _ => rfl⟩

/-- C3: receiving the nil no-data sentinel from either producer leaves the
whole merge state, in particular both retained slots, unchanged. -/
theorem sentinel_preserves_slots (s : MergeState) :
    applyMsg s (Msg.pac none) = s ∧ applyMsg s (Msg.aur none) = s :=
  ⟨rfl, rfl⟩

/-- Witness for C3 at the initial merge state. -/
theorem sentinel_preserves_slots_witness :
    applyMsg initialMergeState (Msg.pac none) = initialMergeState ∧
    applyMsg initialMergeState (Msg.aur none) = initialMergeState :=
  sentinel_preserves_slots initialMergeState

/-- C8 counterexample: on a due tick whose listing command fails with
empty captured output, the AUR poller pushes three messages, not one: the
diagnostic, the Nothing-from-aur line (because the captured output is
empty), and finally the nil value of the never-filled updates slice. -/
theorem aur_listing_failure_three_pushes :
    aurDueTickPushes aurEnvFail =
      [ some [ "Error running pacman -Qm: exit status 1" ],
        some [ "Nothing from aur installed" ], none ] ∧
    (aurDueTickPushes aurEnvFail).length ≠ 1 :=
  ⟨rfl, by decide⟩

/-- C8 amended: on a due tick where the foreign-package listing fails
with empty captured output and the registry query reports no error and no
results, the AUR poller pushes exactly the diagnostic line, then the
Nothing-from-aur line, then the nil sentinel, and continues to the next
tick without crashing. -/
theorem aur_listing_failure_pushes (e : String) :
    aurDueTickPushes ⟨ some e, "", none, [] ⟩ =
      [ some [ "Error running pacman -Qm: " ++ e ],
        some [ "Nothing from aur installed" ], none ] :=
  rfl

/-- Witness for the amended C8 at a concrete error message. -/
theorem aur_listing_failure_pushes_witness :
    aurDueTickPushes ⟨ some "boom", "", none, [] ⟩ =
      [ some [ "Error running pacman -Qm: boom" ],
        some [ "Nothing from aur installed" ], none ] :=
  aur_listing_failure_pushes "boom"

/-- Helper for C2: one merge loop body establishes the count invariant. -/
theorem computeResult_countInv (colors : List String) (rawOutput noColor : Bool)
    (s s2 : MergeState) (h : computeResult colors rawOutput noColor s = some s2) :
    countInv s2 := by
  unfold computeResult at h
  split at h
  · injection h with h2
    subst h2
    exact Or.inl rfl
  · split at h
    · exact Option.noConfusion h
    · injection h with h2
      subst h2
      exact Or.inr (by rw [List.length_append])

/-- Helper for C2: the merge loop preserves the count invariant. -/
theorem mergeRunFrom_countInv (colors : List String) (rawOutput noColor : Bool) :
    ∀ (msgs : List Msg) (s s2 : MergeState), countInv s →
      mergeRunFrom colors rawOutput noColor s msgs = some s2 → countInv s2 := by
  intro msgs
  induction msgs with
  | nil =>
    intro s s2 hs h
    injection h with h2
    subst h2
    exact hs
  | cons m ms ih =>
    intro s s2 hs h
    unfold mergeRunFrom at h
    cases hstep : mergeStep colors rawOutput noColor s m with
    | none =>
      rw [hstep] at h
      exact Option.noConfusion h
    | some s1 =>
      rw [hstep] at h
      exact ih s1 s2
        (computeResult_countInv colors rawOutput noColor (applyMsg s m) s1 hstep) h

/-- C2: for every sequence of received messages that does not abort on a
formatter panic, the Result of the reached merge state carries either the
empty text or the decimal sum of the lengths of the pacman slot and the
AUR slot; the emission at the top of each iteration prints exactly this
Result for the current slots. -/
theorem merged_count_matches_slots (colors : List String) (rawOutput noColor : Bool)
    (msgs : List Msg) (s : MergeState)
    (h : mergeRun colors rawOutput noColor msgs = some s) :
    s.result.Text = "" ∨
      s.result.Text = toString (s.updatesPac.length + s.updatesAur.length) :=
  mergeRunFrom_countInv colors rawOutput noColor msgs initialMergeState s (Or.inr rfl) h

/-- Witness for C2 on the run consisting of one sentinel message. -/
theorem merged_count_matches_slots_witness :
    upToDateState.result.Text = "" ∨
      upToDateState.result.Text =
        toString (upToDateState.updatesPac.length + upToDateState.updatesAur.length) :=
  merged_count_matches_slots defaultColors false false [ Msg.pac none ] upToDateState rfl

/-- Helper for C6: when both character lists have the same length and the
remaining fuel keeps the index within that length, every index the loop
performs is in bounds, so the loop returns a count. -/
theorem parseVersionLoop_isSome_of_eq_length (old new : List Char) :
    ∀ (fuel i d : Nat), old.length = new.length → i + fuel ≤ old.length →
      (parseVersionLoop old new fuel i d).isSome = true := by
  intro fuel
  induction fuel with
  | zero =>
    intro i d _ _
    rfl
  | succ f ih =>
    intro i d hlen hle
    cases hcn : new.get? i with
    | none =>
      have hni := List.get?_eq_none.mp hcn
      exfalso
      omega
    | some cn =>
      cases hco : old.get? i with
      | none =>
        have hoi := List.get?_eq_none.mp hco
        exfalso
        omega
      | some co =>
        simp only [parseVersionLoop, hcn, hco]
        split
        · exact ih (i + 1) _ hlen (by omega)
        · rfl

/-- C6 amended: parseVersion performs only in-bounds indexes, and so
returns a separator count, whenever the two version strings have equal
length; when one string is a strict initial segment of the other the scan
reads past the end of the shorter string, a Go index panic (see the
counterexample on the pair 1.0 and 1.0.1). -/
theorem parseVersion_eq_length_isSome (oldVersion newVersion : String)
    (h : oldVersion.length = newVersion.length) :
    (parseVersion oldVersion newVersion).isSome = true := by
  have hd : oldVersion.data.length = newVersion.data.length := h
  unfold parseVersion
  exact parseVersionLoop_isSome_of_eq_length oldVersion.data newVersion.data _ 0 0 hd
    (by omega)

/-- Witness for the amended C6 on an equal-length pair. -/
theorem parseVersion_eq_length_isSome_witness :
    (parseVersion "1.0.0" "2.0.0").isSome = true :=
  parseVersion_eq_length_isSome "1.0.0" "2.0.0" (by decide)

/-- C6 counterexample: on the pair 1.0 and 1.0.1, where the old version is
a strict initial segment of the new one, the scan reads the old string at
index 3, out of bounds: the embedded parseVersion returns none (the Go
code panics), so parseVersion is not well-defined on every pair of
unequal length. -/
theorem parseVersion_shorter_old_panics :
    parseVersion "1.0" "1.0.1" = none ∧
    ("1.0" : String).length ≠ ("1.0.1" : String).length :=
  ⟨rfl, by decide⟩

end Waybar
